import Mathlib

/-!
Verification development for the travel-ai-agent backend.

The definitions below are a shallow embedding of the Python source under
`backend/app/`: pure functions become Lean functions, the per-request
mutable state of the rate limiter becomes explicit state passing, and
fallible code returns `Option`/`Except`.  Python machine values are
modelled as `Int`/`Nat`/`Rat`; Python strings as Lean `String` (the
source only manipulates ASCII text).
-/

namespace TravelAAgent

/-! ## String helpers (Python semantics) -/

/-- Python `str.lower()` restricted to ASCII, which is all the source uses. -/
def pyLower (s : String) : String :=
  String.mk (s.toList.map Char.toLower)

/-- Python `str.upper()` restricted to ASCII. -/
def pyUpper (s : String) : String :=
  String.mk (s.toList.map Char.toUpper)

/-- Substring test on character lists: `needle` occurs somewhere in `hay`.
This is Python's `needle in hay` for strings. -/
def subList (needle : List Char) : List Char → Bool
  | [] => needle.isEmpty
  | c :: t => needle.isPrefixOf (c :: t) || subList needle t

/-- Python `needle in hay` for strings. -/
def strIn (needle hay : String) : Bool :=
  subList needle.toList hay.toList

/-- Python `str.isalpha()` restricted to ASCII letters. -/
def pyIsAlpha (s : String) : Bool :=
  s.length > 0 && s.toList.all Char.isAlpha

/-- Python `str.strip()` (whitespace at both ends). -/
def pyStrip (s : String) : String :=
  String.mk (((s.toList.dropWhile Char.isWhitespace).reverse.dropWhile
    Char.isWhitespace).reverse)

/-- Splitter on a nonempty separator `s0 :: ss`, Python `str.split(sep)`
semantics (adjacent separators produce empty pieces).  Structural recursion
on a fuel argument so the definition evaluates inside the kernel; every
recursive call consumes at least one character, so `l.length` fuel is
always enough and the fuel-exhausted base case is unreachable. -/
def splitSepAux (s0 : Char) (ss : List Char) : Nat → List Char → List (List Char)
  | 0, l => [l]
  | _ + 1, [] => [[]]
  | fuel + 1, c :: t =>
    if (s0 :: ss).isPrefixOf (c :: t) then
      [] :: splitSepAux s0 ss fuel (t.drop ss.length)
    else
      match splitSepAux s0 ss fuel t with
      | [] => [[c]]
      | h :: r => (c :: h) :: r

/-- Python `s.split(sep)` for a nonempty separator string. -/
def pySplitOn (sep s : String) : List String :=
  match sep.toList with
  | [] => [s]
  | s0 :: ss => (splitSepAux s0 ss s.toList.length s.toList).map String.mk

/-- Python `str.split()` with no argument: split on whitespace runs,
discarding empty pieces.  `acc` holds the current token, reversed. -/
def wsSplitAux : List Char → List Char → List (List Char)
  | [], acc => if acc.isEmpty then [] else [acc.reverse]
  | c :: t, acc =>
    if c.isWhitespace then
      if acc.isEmpty then wsSplitAux t [] else acc.reverse :: wsSplitAux t []
    else wsSplitAux t (c :: acc)

def pySplitWs (s : String) : List String :=
  (wsSplitAux s.toList []).map String.mk

/-- Numeric value of a digit string. -/
def digitsToNat (l : List Char) : Nat :=
  l.foldl (fun a c => a * 10 + (c.toNat - 48)) 0

/-! ## Dates

`datetime.strptime(s, "%Y-%m-%d").date()` from the tools module, and the
chronological order on `datetime.date`.  A date is a calendar-valid
(year, month, day) triple; `strptime` accepts 1-4 digits for `%Y` and
1-2 digits for `%m` / `%d`, separated by literal dashes, and checks
calendar validity (month range, day range for the month, leap years). -/

structure PDate where
  year : Nat
  month : Nat
  day : Nat
deriving DecidableEq, Repr

/-- `a <= b` on `datetime.date`: lexicographic on (year, month, day). -/
def PDate.ble (a b : PDate) : Bool :=
  a.year < b.year ||
    (a.year = b.year && (a.month < b.month ||
      (a.month = b.month && a.day ≤ b.day)))

/-- `a < b` on `datetime.date`. -/
def PDate.blt (a b : PDate) : Bool :=
  a.year < b.year ||
    (a.year = b.year && (a.month < b.month ||
      (a.month = b.month && a.day < b.day)))

def isLeapYear (y : Nat) : Bool :=
  (y % 4 = 0 && y % 100 ≠ 0) || y % 400 = 0

def daysInMonth (y m : Nat) : Nat :=
  if m = 2 then (if isLeapYear y then 29 else 28)
  else if m = 4 || m = 6 || m = 9 || m = 11 then 30
  else 31

/-- A digit-only, nonempty field of bounded width, as matched by a
`strptime` numeric directive. -/
def digitField (lo hi : Nat) (s : String) : Bool :=
  lo ≤ s.length && s.length ≤ hi && s.toList.all Char.isDigit

/-- `datetime.strptime(s, "%Y-%m-%d").date()`, returning `none` where the
Python call raises `ValueError`. -/
def strptimeYmd (s : String) : Option PDate :=
  match pySplitOn "-" s with
  | [ys, ms, ds] =>
    if digitField 1 4 ys && digitField 1 2 ms && digitField 1 2 ds then
      let y := digitsToNat ys.toList
      let m := digitsToNat ms.toList
      let d := digitsToNat ds.toList
      if 1 ≤ y && y ≤ 9999 && 1 ≤ m && m ≤ 12 && 1 ≤ d && d ≤ daysInMonth y m
      then some ⟨y, m, d⟩ else none
    else none
  | _ => none

/-! ## Location resolver (`serpapi_service.get_airport_suggestions` and
`tools._resolve_airport_code`) -/

structure AirportSuggestion where
  code : String
  name : String
deriving DecidableEq, Repr

/-- The static city table of `SerpAPIService.get_airport_suggestions`,
in source (dict insertion) order. -/
def airport_mappings : List (String × List AirportSuggestion) :=
  [("new york",
     [⟨"JFK", "John F. Kennedy International Airport"⟩,
      ⟨"LGA", "LaGuardia Airport"⟩,
      ⟨"EWR", "Newark Liberty International Airport"⟩]),
   ("london",
     [⟨"LHR", "London Heathrow Airport"⟩,
      ⟨"LGW", "London Gatwick Airport"⟩,
      ⟨"STN", "London Stansted Airport"⟩]),
   ("paris",
     [⟨"CDG", "Charles de Gaulle Airport"⟩,
      ⟨"ORY", "Paris-Orly Airport"⟩]),
   ("tokyo",
     [⟨"NRT", "Narita International Airport"⟩,
      ⟨"HND", "Haneda Airport"⟩]),
   ("los angeles",
     [⟨"LAX", "Los Angeles International Airport"⟩]),
   ("chicago",
     [⟨"ORD", "O Hare International Airport"⟩,
      ⟨"MDW", "Midway International Airport"⟩]),
   ("miami",
     [⟨"MIA", "Miami International Airport"⟩]),
   ("san francisco",
     [⟨"SFO", "San Francisco International Airport"⟩]),
   ("boston",
     [⟨"BOS", "Logan International Airport"⟩]),
   ("washington",
     [⟨"DCA", "Ronald Reagan Washington National Airport"⟩,
      ⟨"IAD", "Washington Dulles International Airport"⟩])]

/-- `SerpAPIService.get_airport_suggestions`: bidirectional substring match
against the static table, then a 3-letter-code fallback, truncated to 5. -/
def get_airport_suggestions (query : String) : List AirportSuggestion :=
  let query_lower := pyLower query
  let suggestions := airport_mappings.foldl
    (fun acc cityAirports =>
      if strIn query_lower cityAirports.1 || strIn cityAirports.1 query_lower
      then acc ++ cityAirports.2 else acc) []
  let suggestions :=
    if suggestions.isEmpty && query.length = 3 && pyIsAlpha query
    then suggestions ++ [⟨pyUpper query, pyUpper query ++ " Airport"⟩]
    else suggestions
  suggestions.take 5

/-- `tools._resolve_airport_code`, parameterised by the suggestion source so
that independence from the table can be stated; the 3-letter branch returns
before any suggestion lookup happens. -/
def resolveAirportCodeWith (sugg : String → List AirportSuggestion)
    (location : String) : Option String :=
  if location.length = 3 && pyIsAlpha location then
    some (pyUpper location)
  else
    match sugg location with
    | [] => none
    | s :: _ => some s.code

/-- `tools._resolve_airport_code`. -/
def resolve_airport_code (location : String) : Option String :=
  resolveAirportCodeWith get_airport_suggestions location

/-! ## Flight request model (`models/flight.py`) -/

/-- `TripType` (string enum; the provider-facing values are kept). -/
inductive TripType
  | one_way | round_trip | multi_city
deriving DecidableEq, Repr

def TripType.val : TripType → String
  | .one_way => "2"
  | .round_trip => "1"
  | .multi_city => "3"

/-- `TravelClass` (string enum). -/
inductive TravelClass
  | economy | premium_economy | business | first
deriving DecidableEq, Repr

def TravelClass.val : TravelClass → String
  | .economy => "1"
  | .premium_economy => "2"
  | .business => "3"
  | .first => "4"

/-- `SortBy` (string enum). -/
inductive FlightSortBy
  | top_flights | price | departure_time | arrival_time | duration | emissions
deriving DecidableEq, Repr

/-- `Stops` (string enum). -/
inductive Stops
  | any_stops | nonstop | one_stop_or_fewer | two_stops_or_fewer
deriving DecidableEq, Repr

/-- `FlightSearchRequest` with all of its fields. -/
structure FlightSearchRequest where
  departure_id : String
  arrival_id : String
  outbound_date : PDate
  return_date : Option PDate
  adults : Int
  children : Int
  infants_in_seat : Int
  infants_on_lap : Int
  trip_type : TripType
  travel_class : TravelClass
  sort_by : FlightSortBy
  stops : Stops
  max_price : Option Int
  include_airlines : Option String
  exclude_airlines : Option String
  max_duration : Option Int
deriving DecidableEq, Repr

/-- Construction of a `FlightSearchRequest` as `search_flights` performs it,
with the pydantic validation that actually fires.  The tool passes only the
fields below; the remaining fields take their declared defaults (which
satisfy their own bounds).  Field constraints are checked in declaration
order; only `adults` (1-9) can fail for the tool's inputs.  The model's
`validate_return_date` validator is inert: it guards on
`'trip_type' in values`, but `trip_type` is declared (hence validated)
after `return_date`, so the guard is always false and the validator
returns the value unchecked. -/
def mkFlightSearchRequest (departure_id arrival_id : String)
    (outbound_date : PDate) (return_date : Option PDate) (adults : Int)
    (trip_type : TripType) (travel_class : TravelClass) :
    Except String FlightSearchRequest :=
  if 1 ≤ adults ∧ adults ≤ 9 then
    .ok { departure_id, arrival_id, outbound_date, return_date, adults,
          children := 0, infants_in_seat := 0, infants_on_lap := 0,
          trip_type, travel_class, sort_by := .top_flights,
          stops := .any_stops, max_price := none, include_airlines := none,
          exclude_airlines := none, max_duration := none }
  else
    .error "1 validation error for FlightSearchRequest: adults"

/-! ## Flight search tool (`tools.search_flights`) -/

/-- Outcome of the tool up to the provider boundary: either a structured
error payload (the source serialises it as a JSON `{error: ...}` string and
no provider request is issued), or a fully built request handed to the
provider client. -/
inductive FlightToolResult
  | error (msg : String)
  | providerCall (req : FlightSearchRequest)
deriving DecidableEq, Repr

def FlightToolResult.isError : FlightToolResult → Bool
  | .error _ => true
  | .providerCall _ => false

/-- `trip_type_map` in `search_flights`. -/
def trip_type_map : List (String × TripType) :=
  [("one_way", .one_way), ("round_trip", .round_trip),
   ("multi_city", .multi_city)]

/-- `class_map` in `search_flights`. -/
def class_map : List (String × TravelClass) :=
  [("economy", .economy), ("premium_economy", .premium_economy),
   ("business", .business), ("first", .first)]

/-- Continuation of `search_flights` after location resolution and date
parsing: the round-trip consistency check, request construction, and the
provider call.  A pydantic validation error is caught by the tool's outer
`except` and surfaced as a `Flight search failed: ...` payload. -/
def searchFlightsBuild (departure_code arrival_code : String)
    (outbound_date : PDate) (return_date_obj : Option PDate)
    (passengers : Int) (trip_type travel_class : String) : FlightToolResult :=
  if trip_type = "round_trip" ∧ return_date_obj = none then
    .error "Return date is required for round trip flights."
  else
    match mkFlightSearchRequest departure_code arrival_code outbound_date
        return_date_obj passengers
        ((List.lookup trip_type trip_type_map).getD .round_trip)
        ((List.lookup travel_class class_map).getD .economy) with
    | .error e => .error ("Flight search failed: " ++ e)
    | .ok req => .providerCall req

/-- `tools.search_flights` up to the provider boundary.  Note the source
tests `if return_date:`, so a supplied empty string behaves like an absent
return date. -/
def search_flights (departure_location arrival_location : String)
    (departure_date : String) (return_date : Option String)
    (passengers : Int) (trip_type travel_class : String) : FlightToolResult :=
  match resolve_airport_code departure_location with
  | none =>
    .error ("Could not resolve departure location: " ++ departure_location ++
      ". Please provide a valid airport code (e.g., JFK, LAX) or major city name.")
  | some departure_code =>
  match resolve_airport_code arrival_location with
  | none =>
    .error ("Could not resolve arrival location: " ++ arrival_location ++
      ". Please provide a valid airport code (e.g., JFK, LAX) or major city name.")
  | some arrival_code =>
  match strptimeYmd departure_date with
  | none =>
    .error ("Invalid departure date format: " ++ departure_date ++
      ". Please use YYYY-MM-DD format.")
  | some outbound_date =>
  match (match return_date with
         | none => none
         | some r => if r = "" then none else some r : Option String) with
  | some r =>
    (match strptimeYmd r with
     | none =>
       .error ("Invalid return date format: " ++ r ++
         ". Please use YYYY-MM-DD format.")
     | some rd =>
       if rd.ble outbound_date then
         .error "Return date must be after departure date."
       else
         searchFlightsBuild departure_code arrival_code outbound_date
           (some rd) passengers trip_type travel_class)
  | none =>
    searchFlightsBuild departure_code arrival_code outbound_date
      none passengers trip_type travel_class

/-! ## Hotel request model (`models/hotel.py`) -/

/-- `HotelSortBy` (string enum). -/
inductive HotelSortBy
  | relevance | lowest_price | highest_rating | most_reviewed
deriving DecidableEq, Repr

def HotelSortBy.val : HotelSortBy → String
  | .relevance => "0"
  | .lowest_price => "3"
  | .highest_rating => "8"
  | .most_reviewed => "13"

/-- `HotelSearchRequest` with all of its fields. -/
structure HotelSearchRequest where
  q : String
  check_in_date : PDate
  check_out_date : PDate
  adults : Int
  children : Int
  currency : String
  gl : String
  hl : String
  sort_by : HotelSortBy
  min_price : Option Int
  max_price : Option Int
  rating : Option String
  hotel_class : Option String
  property_types : Option String
  amenities : Option String
  brands : Option String
  vacation_rentals : Bool
  bedrooms : Option Int
  bathrooms : Option Int
  free_cancellation : Bool
  special_offers : Bool
  eco_certified : Bool
deriving DecidableEq, Repr

/-- Construction of a `HotelSearchRequest` as `search_hotels` performs it.
Pydantic validates fields in declaration order: the `check_out_date`
validator fires (its `check_in_date` is already validated), then the
`adults` 1-20 bound, then the `max_price` nonnegativity bound and its
validator (whose `min_price` comparison is skipped because the tool never
sends `min_price`).  Unsent fields take their declared defaults. -/
def mkHotelSearchRequest (q : String) (check_in_date check_out_date : PDate)
    (adults : Int) (sort_by : HotelSortBy) (max_price : Option Int)
    (hotel_class : Option String) (vacation_rentals : Bool) :
    Except String HotelSearchRequest :=
  if check_out_date.ble check_in_date then
    .error "1 validation error for HotelSearchRequest: check_out_date"
  else if ¬ (1 ≤ adults ∧ adults ≤ 20) then
    .error "1 validation error for HotelSearchRequest: adults"
  else if (match max_price with | some mp => decide (mp < 0) | none => false) = true then
    .error "1 validation error for HotelSearchRequest: max_price"
  else
    .ok { q, check_in_date, check_out_date, adults, children := 0,
          currency := "USD", gl := "us", hl := "en", sort_by,
          min_price := none, max_price, rating := none, hotel_class,
          property_types := none, amenities := none, brands := none,
          vacation_rentals, bedrooms := none, bathrooms := none,
          free_cancellation := false, special_offers := false,
          eco_certified := false }

/-! ## Hotel provider response (`models/hotel.py`), the fields the tool
summary reads.  `RateInfo` keeps all four source fields; `HotelProperty`
keeps the fields `search_hotels` inspects (name, type, ratings, reviews,
amenities, rates, hotel class) — the remaining fields of the source model
(images, GPS coordinates, nearby places, tokens, ...) are presentation
payload never read by any embedded operation.  Python floats are modelled
as rationals; no float arithmetic occurs in the embedded code, only
comparisons and selection. -/

structure RateInfo where
  lowest : Option String
  extracted_lowest : Option Rat
  before_taxes_fees : Option String
  extracted_before_taxes_fees : Option Rat
deriving DecidableEq, Repr

structure HotelProperty where
  type : String
  name : String
  rate_per_night : Option RateInfo
  total_rate : Option RateInfo
  hotel_class : Option String
  extracted_hotel_class : Option Int
  overall_rating : Option Rat
  reviews : Option Int
  location_rating : Option Rat
  amenities : List String
deriving DecidableEq, Repr

structure HotelAd where
  name : String
  source : String
  link : String
deriving DecidableEq, Repr

/-- `HotelSearchResponse` (metadata fields that no embedded operation
reads are omitted). -/
structure HotelSearchResponse where
  properties : List HotelProperty
  ads : List HotelAd
  error : Option String
deriving DecidableEq, Repr

/-! ## Hotel search tool (`tools.search_hotels`) -/

inductive HotelToolResult
  | error (msg : String)
  | providerCall (req : HotelSearchRequest)
deriving DecidableEq, Repr

def HotelToolResult.isError : HotelToolResult → Bool
  | .error _ => true
  | .providerCall _ => false

/-- `sort_map` in `search_hotels`. -/
def sort_map : List (String × HotelSortBy) :=
  [("relevance", .relevance), ("price", .lowest_price),
   ("rating", .highest_rating), ("reviews", .most_reviewed)]

/-- `tools.search_hotels` up to the provider boundary (`rooms` is accepted
but only echoed in the results summary, never validated or sent). -/
def search_hotels (location : String) (check_in_date check_out_date : String)
    (guests rooms : Int) (sort_by : String) (max_price : Option Int)
    (hotel_class : Option String) (vacation_rental : Bool) : HotelToolResult :=
  match strptimeYmd check_in_date with
  | none =>
    .error ("Invalid check-in date format: " ++ check_in_date ++
      ". Please use YYYY-MM-DD format.")
  | some check_in =>
  match strptimeYmd check_out_date with
  | none =>
    .error ("Invalid check-out date format: " ++ check_out_date ++
      ". Please use YYYY-MM-DD format.")
  | some check_out =>
  if check_out.ble check_in then
    .error "Check-out date must be after check-in date."
  else
    match mkHotelSearchRequest location check_in check_out guests
        ((List.lookup sort_by sort_map).getD .relevance) max_price
        hotel_class vacation_rental with
    | .error e => .error ("Hotel search failed: " ++ e)
    | .ok req => .providerCall req

/-- The nightly-rate scan of the `search_hotels` summary: Python keeps
`prop.rate_per_night.extracted_lowest` only when both the rate record and
the extracted value are truthy, so a missing record, a missing value and a
value of `0.0` are all skipped. -/
def extractedNightlyRates (properties : List HotelProperty) : List Rat :=
  properties.filterMap (fun prop =>
    match prop.rate_per_night with
    | none => none
    | some rate =>
      match rate.extracted_lowest with
      | none => none
      | some x => if x = 0 then none else some x)

/-- Rendering of `f"${v:.0f}"`; exact decimal tie-rendering of Python
floats is outside the embedding and irrelevant to the properties proved. -/
def fmtPrice0 (v : Rat) : String := "$" ++ toString (round v)

/-- The `price_range` field of the `search_hotels` results summary: it is
initialised to `None` and assigned only under `if prices:`, so `min`/`max`
are never applied to an empty rate list. -/
def summaryPriceRange (properties : List HotelProperty) : Option String :=
  match extractedNightlyRates properties with
  | [] => none
  | p :: ps =>
    some (fmtPrice0 (ps.foldl min p) ++ "-" ++ fmtPrice0 (ps.foldl max p))

/-! ## Rate limiter (`core/dependencies.py`, `RateLimiter.is_allowed`)

The ledger `self.requests` maps a key to its timestamp list; an absent key
and an empty list are observationally identical (the source initialises an
absent key to `[]` before the check), so the state is modelled as a total
function with default `[]`.  `time.time()` values are rationals; `limit`
is a Python int. -/

def RateLedger := String → List Rat

/-- `RateLimiter.is_allowed`: prune the key's entries to the sliding
window, deny when the pruned list has reached the limit (storing the
pruned list), otherwise append the current time and allow. -/
def is_allowed (requests : RateLedger) (key : String) (limit : Int)
    (window : Rat) (now : Rat) : Bool × RateLedger :=
  let window_start := now - window
  let pruned := (requests key).filter (fun req_time => window_start < req_time)
  if limit ≤ (pruned.length : Int) then
    (false, fun k => if k = key then pruned else requests k)
  else
    (true, fun k => if k = key then pruned ++ [now] else requests k)

/-! ## Keyword extractor (`flight_agent.FlightSearchAgent.extract_flight_params`)
and the `/chat/extract-params` endpoint (`api/chat.py`) -/

/-- `FlightSearchParams` (`models/flight.py`). -/
structure FlightSearchParams where
  departure_location : Option String
  arrival_location : Option String
  departure_date : Option String
  return_date : Option String
  passengers : Int
  trip_type : String
  travel_class : String
deriving DecidableEq, Repr

/-- The pydantic defaults of `FlightSearchParams`. -/
def FlightSearchParams.default : FlightSearchParams :=
  ⟨none, none, none, none, 1, "round_trip", "economy"⟩

/-- One step of `re.findall` for the pattern `\d{4}-\d{2}-\d{2}`: does the
list start with a full match? -/
def matchesYmdAt (l : List Char) : Bool :=
  match l.take 10 with
  | [a, b, c, d, h1, e, f, h2, g, i] =>
    a.isDigit && b.isDigit && c.isDigit && d.isDigit && h1 = '-' &&
      e.isDigit && f.isDigit && h2 = '-' && g.isDigit && i.isDigit
  | _ => false

/-- `re.findall(r"\d{4}-\d{2}-\d{2}", s)`: leftmost, non-overlapping.
Fuel-based structural recursion (each step consumes at least one
character, so `l.length` fuel suffices). -/
def findYmdAux : Nat → List Char → List String
  | 0, _ => []
  | _ + 1, [] => []
  | fuel + 1, c :: t =>
    if matchesYmdAt (c :: t) then
      String.mk ((c :: t).take 10) :: findYmdAux fuel ((c :: t).drop 10)
    else
      findYmdAux fuel t

def findYmdDates (s : String) : List String :=
  findYmdAux s.toList.length s.toList

/-- `FlightSearchAgent.extract_flight_params`: keyword/regex extraction
over the message alone (the method reads no instance state).  The arrival
token is `parts[1].split()[0]`, which raises `IndexError` when the text
after the first `to` is empty or all whitespace; that exception is
modelled as the `Except.error` case. -/
def extract_flight_params (message : String) : Except String FlightSearchParams :=
  let message_lower := pyLower message
  let locs : Except String (Option String × Option String) :=
    if strIn "from" message_lower && strIn "to" message_lower then
      match (pySplitOn "from" message_lower).get? 1 with
      | none => .ok (none, none)
      | some afterFrom =>
        match pySplitOn "to" afterFrom with
        | p0 :: p1 :: _ =>
          match pySplitWs p1 with
          | [] => .error "IndexError: list index out of range"
          | tok :: _ => .ok (some (pyStrip p0), some (pyStrip tok))
        | _ => .ok (none, none)
    else .ok (none, none)
  match locs with
  | .error e => .error e
  | .ok (dep, arr) =>
    let dates := findYmdDates message
    .ok { FlightSearchParams.default with
          departure_location := dep
          arrival_location := arr
          departure_date := dates.get? 0
          return_date := if dates.length > 1 then dates.get? 1 else none }

/-- Result of the `POST /chat/extract-params` handler: a success body or
an `HTTPException` with a status code. -/
inductive ExtractEndpointResult
  | ok (message : String) (params : FlightSearchParams)
  | httpError (status : Int) (detail : String)
deriving DecidableEq, Repr

/-- The methods the `TravelAgent` class defines
(`agents/travel_agent.py`); `extract_flight_params` is not among them —
only the legacy `FlightSearchAgent` defines it. -/
def travelAgentMethods : List String :=
  ["__init__", "_get_system_prompt", "process_message",
   "get_conversation_state", "clear_conversation"]

/-- The `/chat/extract-params` handler: it reads `request.get("message",
"")`, rejects an empty message with 400, then calls
`get_travel_agent().extract_flight_params(message)`.  The attribute
lookup on the `TravelAgent` instance is modelled by the method-name table:
when the name is absent Python raises `AttributeError`, which the
handler's generic `except` turns into an HTTP 500. -/
def extract_params_endpoint (message : String) : ExtractEndpointResult :=
  if message = "" then
    .httpError 400 "Message is required"
  else if travelAgentMethods.contains "extract_flight_params" then
    match extract_flight_params message with
    | .ok p => .ok message p
    | .error e => .httpError 500 ("Failed to extract parameters: " ++ e)
  else
    .httpError 500
      "Failed to extract parameters: TravelAgent object has no attribute extract_flight_params"

/-! ## Travel agent chat turn (`agents/travel_agent.py`,
`TravelAgent.process_message`) -/

/-- `HotelSearchParams` (`models/hotel.py`). -/
structure HotelSearchParams where
  location : Option String
  check_in_date : Option String
  check_out_date : Option String
  guests : Int
  rooms : Int
  hotel_class : Option String
  amenities : Option String
  max_price : Option Int
  vacation_rental : Bool
deriving DecidableEq, Repr

/-- `TravelSearchParams` (`models/hotel.py`): the merged flight + hotel
parameter record with its `search_type` tag (a string literal in
`{"flight", "hotel", "both"}`). -/
structure TravelSearchParams where
  search_type : String
  departure_location : Option String
  arrival_location : Option String
  departure_date : Option String
  return_date : Option String
  passengers : Int
  trip_type : String
  travel_class : String
  hotel_location : Option String
  check_in_date : Option String
  check_out_date : Option String
  guests : Int
  rooms : Int
  hotel_class : Option String
  amenities : Option String
  max_price : Option Int
  vacation_rental : Bool
deriving DecidableEq, Repr

/-- The recorded arguments of a `search_flights` tool call
(`tool_call['args']`); an absent key makes `args.get(...)` return the
written default. -/
structure FlightCallArgs where
  departure_location : Option String
  arrival_location : Option String
  departure_date : Option String
  return_date : Option String
  passengers : Option Int
  trip_type : Option String
  travel_class : Option String
deriving DecidableEq, Repr

/-- The recorded arguments of a `search_hotels` tool call. -/
structure HotelCallArgs where
  location : Option String
  check_in_date : Option String
  check_out_date : Option String
  guests : Option Int
  rooms : Option Int
  hotel_class : Option String
  max_price : Option Int
  vacation_rental : Option Bool
deriving DecidableEq, Repr

/-- A tool-invocation record found in the returned message sequence; calls
to tools other than `search_flights` / `search_hotels` are ignored by the
extraction loop. -/
inductive ToolCall
  | flight (args : FlightCallArgs)
  | hotel (args : HotelCallArgs)
  | otherTool (name : String)
deriving DecidableEq, Repr

/-- The `FlightSearchParams` built from a `search_flights` tool call
(`args.get` with the defaults written at the call site). -/
def flightParamsOfArgs (args : FlightCallArgs) : FlightSearchParams :=
  { departure_location := args.departure_location
    arrival_location := args.arrival_location
    departure_date := args.departure_date
    return_date := args.return_date
    passengers := args.passengers.getD 1
    trip_type := args.trip_type.getD "round_trip"
    travel_class := args.travel_class.getD "economy" }

/-- The `HotelSearchParams` built from a `search_hotels` tool call. -/
def hotelParamsOfArgs (args : HotelCallArgs) : HotelSearchParams :=
  { location := args.location
    check_in_date := args.check_in_date
    check_out_date := args.check_out_date
    guests := args.guests.getD 2
    rooms := args.rooms.getD 1
    hotel_class := args.hotel_class
    amenities := none
    max_price := args.max_price
    vacation_rental := args.vacation_rental.getD false }

/-- One step of the parameter-extraction loop of `process_message`: create
`extracted_params` on the first flight/hotel call, or mutate it in place on
later calls.  The `search_type` updates are the source's ternaries:
`"both" if search_type == "hotel" else "flight"` on a flight call and
`"both" if search_type == "flight" else "hotel"` on a hotel call. -/
def updateExtractedParams (acc : Option TravelSearchParams) (call : ToolCall) :
    Option TravelSearchParams :=
  match call with
  | .otherTool _ => acc
  | .flight args =>
    let fp := flightParamsOfArgs args
    match acc with
    | none =>
      some { search_type := "flight"
             departure_location := fp.departure_location
             arrival_location := fp.arrival_location
             departure_date := fp.departure_date
             return_date := fp.return_date
             passengers := fp.passengers
             trip_type := fp.trip_type
             travel_class := fp.travel_class
             hotel_location := none, check_in_date := none
             check_out_date := none, guests := 2, rooms := 1
             hotel_class := none, amenities := none, max_price := none
             vacation_rental := false }
    | some p =>
      some { p with
             search_type := if p.search_type = "hotel" then "both" else "flight"
             departure_location := fp.departure_location
             arrival_location := fp.arrival_location
             departure_date := fp.departure_date
             return_date := fp.return_date
             passengers := fp.passengers
             trip_type := fp.trip_type
             travel_class := fp.travel_class }
  | .hotel args =>
    let hp := hotelParamsOfArgs args
    match acc with
    | none =>
      some { search_type := "hotel"
             departure_location := none, arrival_location := none
             departure_date := none, return_date := none
             passengers := 1, trip_type := "round_trip"
             travel_class := "economy"
             hotel_location := hp.location
             check_in_date := hp.check_in_date
             check_out_date := hp.check_out_date
             guests := hp.guests
             rooms := hp.rooms
             hotel_class := hp.hotel_class
             amenities := none
             max_price := hp.max_price
             vacation_rental := hp.vacation_rental }
    | some p =>
      some { p with
             search_type := if p.search_type = "flight" then "both" else "hotel"
             hotel_location := hp.location
             check_in_date := hp.check_in_date
             check_out_date := hp.check_out_date
             guests := hp.guests
             rooms := hp.rooms
             hotel_class := hp.hotel_class
             max_price := hp.max_price
             vacation_rental := hp.vacation_rental }

/-- The whole extraction pass over the turn's tool-call records, in
message order. -/
def extractedParamsOfCalls (calls : List ToolCall) : Option TravelSearchParams :=
  calls.foldl updateExtractedParams none

/-- The `clarification_indicators` wordlist of `process_message`. -/
def clarification_indicators : List String :=
  ["what", "when", "where", "which", "how many",
   "need to know", "please provide", "can you tell me",
   "missing", "require", "specify"]

/-- `any(indicator in response_lower for indicator in clarification_indicators)`. -/
def needsClarificationScan (response_lower : String) : Bool :=
  clarification_indicators.any (fun indicator => strIn indicator response_lower)

/-- The missing-parameter keyword scan of `process_message`.  It runs only
inside the `needs_clarification` branch; appends happen in source order and
are not deduplicated. -/
def missingParamsScan (response_lower : String) : List String :=
  if needsClarificationScan response_lower then
    (if strIn "departure" response_lower || strIn "from" response_lower
     then ["departure_location"] else []) ++
    (if strIn "arrival" response_lower || strIn "destination" response_lower ||
        strIn "to" response_lower
     then ["arrival_location"] else []) ++
    (if strIn "check-in" response_lower || strIn "check in" response_lower
     then ["check_in_date"] else []) ++
    (if strIn "check-out" response_lower || strIn "check out" response_lower
     then ["check_out_date"] else []) ++
    (if strIn "date" response_lower || strIn "when" response_lower
     then ["dates"] else []) ++
    (if strIn "passenger" response_lower || strIn "traveler" response_lower ||
        strIn "guest" response_lower
     then ["passengers_or_guests"] else []) ++
    (if strIn "location" response_lower || strIn "where" response_lower
     then ["location"] else [])
  else []

/-- `ChatRequest` (`models/flight.py`). -/
structure ChatRequest where
  message : String
  thread_id : Option String
deriving DecidableEq, Repr

/-- `ChatResponse` (`models/flight.py`).  `process_message` never
populates `flight_results` / `hotel_results` (they stay `None` on every
path), so their payload types are irrelevant to the embedded behaviour and
are modelled as `Unit`; `extracted_params` is serialised from
`TravelSearchParams`. -/
structure ChatResponse where
  message : String
  thread_id : String
  flight_results : Option Unit
  hotel_results : Option Unit
  extracted_params : Option TravelSearchParams
  needs_clarification : Bool
  missing_params : List String
deriving DecidableEq, Repr

/-- A message of the sequence returned by the agent runtime: whether it is
an `AIMessage`, its text content, and its recorded tool calls. -/
structure AgentMsg where
  isAI : Bool
  content : String
  tool_calls : List ToolCall
deriving DecidableEq, Repr

/-- What the external agent runtime did for this turn: returned a message
sequence, or raised. -/
inductive RunOutcome
  | returned (messages : List AgentMsg)
  | raised (e : String)
deriving DecidableEq, Repr

/-- Python `request.thread_id or fresh`: `None` and the empty string are
both falsy. -/
def threadIdOr (tid : Option String) (fresh : String) : String :=
  match tid with
  | none => fresh
  | some s => if s = "" then fresh else s

/-- The `try` body of `process_message`: everything that can raise is in
the `Except` monad; `freshTry` stands for the timestamp-generated thread
id of this run. -/
def processMessageBody (req : ChatRequest) (freshTry : String)
    (run : RunOutcome) : Except String ChatResponse :=
  let thread_id := threadIdOr req.thread_id freshTry
  match run with
  | .raised e => .error e
  | .returned messages =>
    if messages.isEmpty then .error "No response from agent"
    else
      match messages.reverse.find? (fun m => m.isAI) with
      | none => .error "No AI response found"
      | some ai_message =>
        let response_content := ai_message.content
        let extracted_params :=
          extractedParamsOfCalls (messages.flatMap (fun m => m.tool_calls))
        let response_lower := pyLower response_content
        .ok { message := response_content
              thread_id
              flight_results := none
              hotel_results := none
              extracted_params
              needs_clarification := needsClarificationScan response_lower
              missing_params := missingParamsScan response_lower }

/-- The fixed apology template of the `except` branch. -/
def apologyMessage (e : String) : String :=
  "I apologize, but I encountered an error while processing your request: "
    ++ e ++ ". Please try again or rephrase your question."

/-- The degraded `ChatResponse` built by the `except` branch;
`freshExcept` is the freshly generated thread id of that branch. -/
def degradedResponse (req : ChatRequest) (freshExcept : String)
    (e : String) : ChatResponse :=
  { message := apologyMessage e
    thread_id := threadIdOr req.thread_id freshExcept
    flight_results := none
    hotel_results := none
    extracted_params := none
    needs_clarification := true
    missing_params := [] }

/-- `TravelAgent.process_message`: the whole body runs under
`try/except Exception`, so every raise becomes the degraded response and
the function always returns a `ChatResponse`. -/
def process_message (req : ChatRequest) (freshTry freshExcept : String)
    (run : RunOutcome) : ChatResponse :=
  match processMessageBody req freshTry run with
  | .ok resp => resp
  | .error e => degradedResponse req freshExcept e

/-- The `POST /chat/message` handler (`api/chat.py`): it awaits
`process_message` and returns its value; since `process_message` is total,
the handler's own `except` is unreachable and the HTTP status is 200. -/
def send_message (req : ChatRequest) (freshTry freshExcept : String)
    (run : RunOutcome) : Int × ChatResponse :=
  (200, process_message req freshTry freshExcept run)

/-! # Theorems -/

/-- C8: every string of exactly three alphabetic characters is returned
uppercased verbatim by the location resolver, whatever the suggestion
table holds — the 3-letter branch answers before any table lookup, so the
result is independent of the suggestion source `sugg`. -/
theorem resolver_three_letter_uppercase
    (sugg : String → List AirportSuggestion) (location : String)
    (hlen : location.length = 3) (halpha : pyIsAlpha location = true) :
    resolveAirportCodeWith sugg location = some (pyUpper location) := by
  unfold resolveAirportCodeWith
  rw [if_pos]
  simp [hlen, halpha]

/-- C8 witness: `"jfk"` resolves to `"JFK"` through the real resolver (the
one instantiated with the table-backed suggestion function). -/
theorem resolver_three_letter_uppercase_witness :
    resolve_airport_code "jfk" = some "JFK" := by
  have h := resolver_three_letter_uppercase get_airport_suggestions "jfk" rfl rfl
  simpa [resolve_airport_code, pyUpper] using h

/-- C9: when no property of the provider response carries a truthy
extracted lowest nightly rate (in particular when the property list is
empty), the summary's `price_range` stays `none`; the min/max fold in
`summaryPriceRange` is syntactically guarded by a nonempty match, so it is
never applied to an empty rate list. -/
theorem hotel_price_range_empty
    (response : HotelSearchResponse)
    (hempty : extractedNightlyRates response.properties = []) :
    summaryPriceRange response.properties = none ∧
      summaryPriceRange [] = none := by
  constructor
  · unfold summaryPriceRange
    rw [hempty]
  · rfl

/-- C9 witness: a response with one property that has no nightly-rate
record yields no aggregated price range. -/
theorem hotel_price_range_empty_witness :
    summaryPriceRange
      (HotelSearchResponse.mk
        [⟨"hotel", "No Rate Inn", none, none, none, none, none, none, none, []⟩]
        [] none).properties = none :=
  (hotel_price_range_empty
    (HotelSearchResponse.mk
      [⟨"hotel", "No Rate Inn", none, none, none, none, none, none, none, []⟩]
      [] none) rfl).1

/-- C6: whenever both hotel dates parse and the check-out date is less
than or equal to the check-in date, `search_hotels` returns the dedicated
structured error and no provider request is built or issued. -/
theorem search_hotels_checkout_validation
    (location ci co : String) (guests rooms : Int) (sort_by : String)
    (max_price : Option Int) (hotel_class : Option String)
    (vacation_rental : Bool) (d1 d2 : PDate)
    (h1 : strptimeYmd ci = some d1) (h2 : strptimeYmd co = some d2)
    (hle : d2.ble d1 = true) :
    search_hotels location ci co guests rooms sort_by max_price hotel_class
        vacation_rental
      = HotelToolResult.error "Check-out date must be after check-in date." := by
  unfold search_hotels
  rw [h1, h2]
  simp [hle]

/-- C6 witness: the spec's end-to-end scenario, check-in 2026-02-01 and
check-out 2026-01-30. -/
theorem search_hotels_checkout_validation_witness :
    search_hotels "Paris" "2026-02-01" "2026-01-30" 2 1 "relevance"
        none none false
      = HotelToolResult.error "Check-out date must be after check-in date." :=
  search_hotels_checkout_validation "Paris" "2026-02-01" "2026-01-30" 2 1
    "relevance" none none false ⟨2026, 2, 1⟩ ⟨2026, 1, 30⟩ rfl rfl rfl

/-- C7: the `/chat/extract-params` endpoint never runs the keyword/regex
extractor: `get_travel_agent()` returns a `TravelAgent`, whose class does
not define `extract_flight_params` (only the legacy `FlightSearchAgent`
does), so the attribute lookup raises `AttributeError` and the handler
answers HTTP 500 — here evaluated at the concrete failing input. -/
theorem extract_params_endpoint_attribute_error :
    extract_params_endpoint "flights from JFK to LAX on 2026-01-10"
      = ExtractEndpointResult.httpError 500
          "Failed to extract parameters: TravelAgent object has no attribute extract_flight_params"
      ∧ extract_flight_params "flights from JFK to LAX on 2026-01-10"
          = Except.ok ⟨some "jfk", some "lax", some "2026-01-10", none, 1,
              "round_trip", "economy"⟩ :=
  ⟨rfl, rfl⟩

/-- C4 counterexample: with both locations resolving, both dates parsing
and the return date strictly after the outbound date, but a passenger
count of 0, request construction does NOT succeed — the pydantic `adults`
bound (1-9) rejects the request inside the tool's `except`, refuting the
claim's unconditional success arm. -/
theorem search_flights_zero_passengers_counterexample :
    search_flights "JFK" "LAX" "2026-01-10" (some "2026-01-20") 0
        "round_trip" "economy"
      = FlightToolResult.error
          "Flight search failed: 1 validation error for FlightSearchRequest: adults"
      ∧ ∀ req, search_flights "JFK" "LAX" "2026-01-10" (some "2026-01-20") 0
          "round_trip" "economy" ≠ FlightToolResult.providerCall req := by
  have h0 : search_flights "JFK" "LAX" "2026-01-10" (some "2026-01-20") 0
      "round_trip" "economy"
      = FlightToolResult.error
          "Flight search failed: 1 validation error for FlightSearchRequest: adults" := rfl
  refine ⟨h0, fun req hreq => ?_⟩
  rw [h0] at hreq
  exact absurd hreq (by simp)

/-- C4 (amended): for every `search_flights` invocation whose locations
resolve and whose dates parse as `YYYY-MM-DD`: (a) if a (non-empty) return
date is supplied and is strictly after the outbound date AND the passenger
count lies in the validated 1-9 range, request construction succeeds;
(b) if the supplied return date is less than or equal to the outbound
date, the tool returns the dedicated error and builds no request;
(c) if the trip type is `"round_trip"` with no return date supplied, it
returns the dedicated error and builds no request. -/
theorem search_flights_date_validation
    (dep arr dd : String) (passengers : Int) (tt tc : String)
    (dc ac : String) (od : PDate)
    (hdep : resolve_airport_code dep = some dc)
    (harr : resolve_airport_code arr = some ac)
    (hod : strptimeYmd dd = some od) :
    (∀ (r : String) (rd : PDate), r ≠ "" → strptimeYmd r = some rd →
      rd.ble od = false → 1 ≤ passengers → passengers ≤ 9 →
      ∃ req, search_flights dep arr dd (some r) passengers tt tc
        = FlightToolResult.providerCall req) ∧
    (∀ (r : String) (rd : PDate), r ≠ "" → strptimeYmd r = some rd →
      rd.ble od = true →
      search_flights dep arr dd (some r) passengers tt tc
        = FlightToolResult.error "Return date must be after departure date.") ∧
    (tt = "round_trip" →
      search_flights dep arr dd none passengers tt tc
        = FlightToolResult.error "Return date is required for round trip flights.") := by
  refine ⟨?_, ?_, ?_⟩
  · intro r rd hr hrd hble hp1 hp9
    unfold search_flights
    rw [hdep, harr, hod]
    simp only [if_neg hr]
    rw [hrd]
    simp only [hble, Bool.false_eq_true, if_false]
    unfold searchFlightsBuild mkFlightSearchRequest
    rw [if_neg (by simp), if_pos ⟨hp1, hp9⟩]
    exact ⟨_, rfl⟩
  · intro r rd hr hrd hble
    unfold search_flights
    rw [hdep, harr, hod]
    simp only [if_neg hr]
    rw [hrd]
    simp [hble]
  · intro htt
    unfold search_flights
    rw [hdep, harr, hod]
    dsimp only
    unfold searchFlightsBuild
    rw [if_pos ⟨htt, rfl⟩]

/-- C4 witness: the three arms at concrete inputs (JFK→LAX on 2026-01-10;
return 2026-01-20 succeeds, return 2026-01-05 yields the inversion error,
and a round trip without a return date yields the dedicated error). -/
theorem search_flights_date_validation_witness :
    (∃ req, search_flights "JFK" "LAX" "2026-01-10" (some "2026-01-20") 1
        "round_trip" "economy" = FlightToolResult.providerCall req) ∧
    search_flights "JFK" "LAX" "2026-01-10" (some "2026-01-05") 1
        "round_trip" "economy"
      = FlightToolResult.error "Return date must be after departure date." ∧
    search_flights "JFK" "LAX" "2026-01-10" none 1 "round_trip" "economy"
      = FlightToolResult.error "Return date is required for round trip flights." :=
  ⟨(search_flights_date_validation "JFK" "LAX" "2026-01-10" 1 "round_trip"
      "economy" "JFK" "LAX" ⟨2026, 1, 10⟩ rfl rfl rfl).1
      "2026-01-20" ⟨2026, 1, 20⟩ (by decide) rfl rfl (by decide) (by decide),
   (search_flights_date_validation "JFK" "LAX" "2026-01-10" 1 "round_trip"
      "economy" "JFK" "LAX" ⟨2026, 1, 10⟩ rfl rfl rfl).2.1
      "2026-01-05" ⟨2026, 1, 5⟩ (by decide) rfl rfl,
   (search_flights_date_validation "JFK" "LAX" "2026-01-10" 1 "round_trip"
      "economy" "JFK" "LAX" ⟨2026, 1, 10⟩ rfl rfl rfl).2.2 rfl⟩

/-- C5: a trip-type or travel-class token outside the fixed lookup tables
is silently mapped to the round-trip / economy default: with every other
input valid, the tool still reaches the provider call and the built
request carries `TripType.round_trip` and `TravelClass.economy`.  (The
model-level `validate_return_date` never fires — see
`mkFlightSearchRequest` — so even the round-trip default with no return
date raises nothing.) -/
theorem search_flights_unknown_tokens_default
    (dep arr dd : String) (rdo : Option String) (passengers : Int)
    (tt tc : String) (dc ac : String) (od : PDate)
    (hdep : resolve_airport_code dep = some dc)
    (harr : resolve_airport_code arr = some ac)
    (hod : strptimeYmd dd = some od)
    (hp1 : 1 ≤ passengers) (hp9 : passengers ≤ 9)
    (hrdo : rdo = none ∨ ∃ r rd, rdo = some r ∧ r ≠ "" ∧
      strptimeYmd r = some rd ∧ rd.ble od = false)
    (htt : List.lookup tt trip_type_map = none)
    (htc : List.lookup tc class_map = none) :
    ∃ req, search_flights dep arr dd rdo passengers tt tc
        = FlightToolResult.providerCall req ∧
      req.trip_type = TripType.round_trip ∧
      req.travel_class = TravelClass.economy := by
  have httne : tt ≠ "round_trip" := by
    intro h
    rw [h] at htt
    exact absurd htt (by simp [trip_type_map])
  rcases hrdo with hnone | ⟨r, rd, hr, hrne, hrd, hble⟩
  · subst hnone
    unfold search_flights
    rw [hdep, harr, hod]
    dsimp only
    unfold searchFlightsBuild mkFlightSearchRequest
    rw [if_neg (fun hand => httne hand.1), if_pos ⟨hp1, hp9⟩]
    exact ⟨_, rfl, by simp [htt], by simp [htc]⟩
  · subst hr
    unfold search_flights
    rw [hdep, harr, hod]
    simp only [if_neg hrne]
    rw [hrd]
    simp only [hble, Bool.false_eq_true, if_false]
    unfold searchFlightsBuild mkFlightSearchRequest
    rw [if_neg (fun hand => httne hand.1), if_pos ⟨hp1, hp9⟩]
    exact ⟨_, rfl, by simp [htt], by simp [htc]⟩

/-- C5 witness: unrecognized tokens `"zigzag"` / `"luxury"` with all other
inputs valid reach the provider with the round-trip / economy defaults. -/
theorem search_flights_unknown_tokens_default_witness :
    ∃ req, search_flights "JFK" "LAX" "2026-01-10" none 1 "zigzag" "luxury"
        = FlightToolResult.providerCall req ∧
      req.trip_type = TripType.round_trip ∧
      req.travel_class = TravelClass.economy :=
  search_flights_unknown_tokens_default "JFK" "LAX" "2026-01-10" none 1
    "zigzag" "luxury" "JFK" "LAX" ⟨2026, 1, 10⟩ rfl rfl rfl (by decide)
    (by decide) (Or.inl rfl) rfl rfl

/-- C1 counterexample: for the tool-call sequence flight, hotel, flight the
final `search_type` tag is `"flight"`, not `"both"` — the source ternary
sets the tag to `"both"` only when the previous tag is exactly the other
single domain, so a flight call seen while the tag is `"both"` collapses
it back to `"flight"`. -/
theorem search_type_sequence_counterexample :
    (extractedParamsOfCalls
        [ToolCall.flight ⟨some "JFK", some "LAX", some "2026-01-10",
           none, none, none, none⟩,
         ToolCall.hotel ⟨some "Paris", some "2026-02-01", some "2026-02-05",
           none, none, none, none, none⟩,
         ToolCall.flight ⟨some "JFK", some "LAX", some "2026-01-10",
           none, none, none, none⟩]).map (fun p => p.search_type)
      ≠ some "both"
    ∧ (extractedParamsOfCalls
        [ToolCall.flight ⟨some "JFK", some "LAX", some "2026-01-10",
           none, none, none, none⟩,
         ToolCall.hotel ⟨some "Paris", some "2026-02-01", some "2026-02-05",
           none, none, none, none, none⟩,
         ToolCall.flight ⟨some "JFK", some "LAX", some "2026-01-10",
           none, none, none, none⟩]).map (fun p => p.search_type)
      = some "flight" := by
  refine ⟨?_, rfl⟩
  intro h
  have : some "flight" = some "both" := (rfl : _ = some "flight").symm.trans h
  simp at this

/-- C1 (amended): the `search_type` update of one extraction step is the
source's ternary — after a `search_flights` call the tag is `"both"`
exactly when the tag beforehand was `"hotel"` and otherwise `"flight"`
(symmetrically for `search_hotels`), so the tag is NOT monotone once
broadened: a flight call seen while the tag is `"both"` resets it to
`"flight"`, and the sequence flight, hotel, flight ends at `"flight"`. -/
theorem search_type_update_characterisation
    (p : TravelSearchParams) (fa : FlightCallArgs) (ha : HotelCallArgs) :
    ((updateExtractedParams (some p) (ToolCall.flight fa)).map
        (fun q => q.search_type)
      = some (if p.search_type = "hotel" then "both" else "flight")) ∧
    ((updateExtractedParams (some p) (ToolCall.hotel ha)).map
        (fun q => q.search_type)
      = some (if p.search_type = "flight" then "both" else "hotel")) ∧
    ((extractedParamsOfCalls
        [ToolCall.flight fa, ToolCall.hotel ha, ToolCall.flight fa]).map
        (fun q => q.search_type) = some "flight") :=
  ⟨rfl, rfl, rfl⟩

/-- C2 counterexample: a reply whose lower-cased text contains
`"departure"` but no clarification indicator produces an empty
`missing_params` list — the missing-parameter scan runs only inside the
clarification branch, so the claimed reply-text-only sufficiency fails. -/
theorem missing_params_departure_counterexample :
    strIn "departure" (pyLower "departure") = true ∧
    (process_message ⟨"hi", none⟩ "thread_1" "thread_2"
        (RunOutcome.returned [⟨true, "departure", []⟩])).missing_params
      = [] :=
  ⟨rfl, rfl⟩

/-- C2 (amended): `missing_params` is a pure function of the final reply
text (the scan reads nothing else); for every turn whose final assistant
reply lower-cases to text containing `"departure"` AND containing at least
one clarification indicator (the missing-params scan runs only when the
clarification scan fires), the returned list contains
`"departure_location"`, regardless of the rest of the text and of which
tool calls occurred. -/
theorem missing_params_departure_needs_indicator
    (req : ChatRequest) (freshTry freshExcept : String)
    (messages : List AgentMsg) (ai : AgentMsg)
    (hne : messages.isEmpty = false)
    (hfind : messages.reverse.find? (fun m => m.isAI) = some ai)
    (hdep : strIn "departure" (pyLower ai.content) = true)
    (hclar : needsClarificationScan (pyLower ai.content) = true) :
    "departure_location" ∈
      (process_message req freshTry freshExcept
        (RunOutcome.returned messages)).missing_params := by
  unfold process_message processMessageBody
  dsimp only
  rw [if_neg (by rw [hne]; exact Bool.false_ne_true)]
  rw [hfind]
  dsimp only
  unfold missingParamsScan
  rw [if_pos hclar]
  have hcond : (strIn "departure" (pyLower ai.content) ||
      strIn "from" (pyLower ai.content)) = true := by
    rw [hdep]; rfl
  rw [if_pos hcond]
  simp

/-- C2 witness: the reply "What is your departure city?" contains the
indicator `"what"` and the keyword `"departure"`, and the turn's
`missing_params` indeed contains `"departure_location"`. -/
theorem missing_params_departure_needs_indicator_witness :
    "departure_location" ∈
      (process_message ⟨"hi", none⟩ "thread_1" "thread_2"
        (RunOutcome.returned
          [⟨true, "What is your departure city?", []⟩])).missing_params :=
  missing_params_departure_needs_indicator ⟨"hi", none⟩ "thread_1" "thread_2"
    [⟨true, "What is your departure city?", []⟩]
    ⟨true, "What is your departure city?", []⟩ rfl rfl rfl rfl

/-- C3: every exception raised while processing a chat turn (the agent
runtime raising, an empty message list, or a missing assistant message) is
caught: `process_message` returns the degraded `ChatResponse` whose
message is the fixed apology template embedding the error text, whose
clarification flag is true, whose thread id is the request's (non-empty)
thread id if present and a freshly generated one otherwise, and which
carries no flight or hotel results; the `/chat/message` handler therefore
answers 200. -/
theorem process_message_catches_all
    (req : ChatRequest) (freshTry freshExcept : String) (run : RunOutcome)
    (e : String) (herr : processMessageBody req freshTry run = Except.error e) :
    process_message req freshTry freshExcept run
        = degradedResponse req freshExcept e ∧
    (process_message req freshTry freshExcept run).message
        = apologyMessage e ∧
    (process_message req freshTry freshExcept run).needs_clarification
        = true ∧
    (process_message req freshTry freshExcept run).flight_results = none ∧
    (process_message req freshTry freshExcept run).hotel_results = none ∧
    (req.thread_id = none →
      (process_message req freshTry freshExcept run).thread_id = freshExcept) ∧
    (∀ s, req.thread_id = some s → s ≠ "" →
      (process_message req freshTry freshExcept run).thread_id = s) ∧
    (send_message req freshTry freshExcept run).1 = 200 := by
  have hpm : process_message req freshTry freshExcept run
      = degradedResponse req freshExcept e := by
    unfold process_message
    rw [herr]
  refine ⟨hpm, ?_, ?_, ?_, ?_, ?_, ?_, rfl⟩
  · rw [hpm]; rfl
  · rw [hpm]; rfl
  · rw [hpm]; rfl
  · rw [hpm]; rfl
  · intro hnone
    rw [hpm]
    unfold degradedResponse threadIdOr
    rw [hnone]
  · intro s hsome hsne
    rw [hpm]
    unfold degradedResponse threadIdOr
    rw [hsome]
    simp [hsne]

/-- C3 witness: a runtime exception `"boom"` on a request carrying thread
id `"t-55"` yields the degraded response with the apology text, the
preserved thread id, no results, and HTTP 200. -/
theorem process_message_catches_all_witness :
    process_message ⟨"hi", some "t-55"⟩ "f1" "f2" (RunOutcome.raised "boom")
        = degradedResponse ⟨"hi", some "t-55"⟩ "f2" "boom" ∧
    (process_message ⟨"hi", some "t-55"⟩ "f1" "f2"
        (RunOutcome.raised "boom")).thread_id = "t-55" :=
  ⟨(process_message_catches_all ⟨"hi", some "t-55"⟩ "f1" "f2"
      (RunOutcome.raised "boom") "boom" rfl).1,
   (process_message_catches_all ⟨"hi", some "t-55"⟩ "f1" "f2"
      (RunOutcome.raised "boom") "boom" rfl).2.2.2.2.2.2.1
      "t-55" rfl (by decide)⟩

/-- C10: `is_allowed` preserves the ledger invariant.  For a positive
window and a stored list within the limit: after the call the key's stored
list contains only timestamps strictly inside the sliding window and has
length at most the limit; the call returns `false` exactly when the pruned
list already holds `limit` entries; a denied call stores exactly the
pruned list (appending nothing, so denied requests consume no quota); and
every other key's ledger entry is untouched. -/
theorem rate_limiter_invariant
    (requests : RateLedger) (key : String) (limit : Int) (window now : Rat)
    (hw : 0 < window)
    (hlen : (((requests key).length : Int)) ≤ limit) :
    (∀ t ∈ (is_allowed requests key limit window now).2 key,
        now - window < t) ∧
    ((((is_allowed requests key limit window now).2 key).length : Int)
        ≤ limit) ∧
    ((is_allowed requests key limit window now).1 = false ↔
      (((requests key).filter
          (fun req_time => now - window < req_time)).length : Int) = limit) ∧
    ((is_allowed requests key limit window now).1 = false →
      (is_allowed requests key limit window now).2 key
        = (requests key).filter (fun req_time => now - window < req_time)) ∧
    (∀ k, k ≠ key →
      (is_allowed requests key limit window now).2 k = requests k) := by
  unfold is_allowed
  have hple : (((requests key).filter
      (fun req_time => now - window < req_time)).length : Int)
      ≤ ((requests key).length : Int) := by
    exact_mod_cast List.length_filter_le _ _
  by_cases hlim : limit ≤ (((requests key).filter
      (fun req_time => now - window < req_time)).length : Int)
  · rw [if_pos hlim]
    dsimp only
    refine ⟨?_, ?_, ?_, ?_, ?_⟩
    · intro t ht
      rw [if_pos rfl] at ht
      have := List.mem_filter.mp ht
      exact of_decide_eq_true this.2
    · rw [if_pos rfl]
      exact hple.trans hlen
    · constructor
      · intro _
        exact le_antisymm (hple.trans hlen) hlim
      · intro _
        rfl
    · intro _
      rw [if_pos rfl]
    · intro k hk
      rw [if_neg hk]
  · rw [if_neg hlim]
    push_neg at hlim
    dsimp only
    refine ⟨?_, ?_, ?_, ?_, ?_⟩
    · intro t ht
      rw [if_pos rfl] at ht
      rcases List.mem_append.mp ht with hmem | hnow
      · exact of_decide_eq_true (List.mem_filter.mp hmem).2
      · rw [List.mem_singleton.mp hnow]
        linarith
    · rw [if_pos rfl]
      rw [List.length_append, List.length_singleton]
      push_cast
      omega
    · constructor
      · intro h
        exact absurd h (by simp)
      · intro h
        exact absurd h (by omega)
    · intro h
      exact absurd h (by simp)
    · intro k hk
      rw [if_neg hk]

/-- C10 witness: the first request for a fresh key under limit 100 /
window 3600 at time 0 — the denial condition is equivalent to the (empty)
pruned list holding 100 entries. -/
theorem rate_limiter_invariant_witness :
    (is_allowed (fun _ => []) "anonymous" 100 3600 0).1 = false ↔
      ((((fun _ => ([] : List Rat)) "anonymous").filter
          (fun req_time => (0 : Rat) - 3600 < req_time)).length : Int) = 100 :=
  (rate_limiter_invariant (fun _ => []) "anonymous" 100 3600 0
    (by norm_num) (by simp)).2.2.1

end TravelAAgent
